import Mathlib

/-!
Verification of the streaming CSV source operator
(`crates/polars-pipe/src/executors/sources/csv.rs`).

The Rust code is shallowly embedded: the `CsvSource` struct becomes a Lean
structure, `&mut self` methods become explicit state-passing functions, and
the externally supplied effects (file opening, batched-decoder construction,
the per-call decoder answer, the worker pool size, the process-wide scan row
limit) are supplied through an `Env` oracle.  Heap effects of `Box::leak` /
`Box::from_raw` and the process-wide chunk-index counter live in a `World`
record, so resource leaks and index allocation are observable.  `unwrap` on a
missing value is modelled as an explicit `panic` outcome.
-/

namespace PolarsPipe

/-- Modulus of 32-bit unsigned arithmetic (`u32` / default `IdxSize`),
that is `2 ^ 32`. -/
def U32MOD : Nat := 4294967296

/-- Rust's `Either` (from `polars_core::export::arrow`), used for the two
batched-reader variants: `left` = `BatchedCsvReaderMmap`, `right` =
`BatchedCsvReaderRead`. -/
inductive Either (α β : Type) where
  | left : α → Either α β
  | right : β → Either α β
deriving DecidableEq, Repr

/-- One decoded batch (`DataFrame`).  Its contents are opaque to the source
operator; only identity matters here. -/
structure DataFrame where
  tag : Nat
deriving DecidableEq, Repr

/-- A row-index column request (`RowIndex`): name and starting offset. -/
structure RowIndex where
  name : String
  offset : Nat
deriving DecidableEq, Repr

/-- `DataChunk { chunk_index, data }` as produced by the source. -/
structure DataChunk where
  chunk_index : Nat
  data : DataFrame
deriving DecidableEq, Repr

/-- `SourceResult`: either the source is exhausted or it produced chunks. -/
inductive SourceResult where
  | Finished : SourceResult
  | GotMoreData : List DataChunk → SourceResult
deriving DecidableEq, Repr

/-- The schema is modelled by its column names; the operator only uses its
length and passes it through opaquely (`with_schema_overwrite`). -/
abbrev Schema := List String

/-- The fields of `CsvReadOptions` that `csv.rs` reads or sets.  The builder
methods below mirror the `with_*` setters used in `init_reader`. -/
structure CsvReadOptions where
  low_memory : Bool
  skip_rows_after_header : Nat
  schema_overwrite : Option Schema
  n_rows : Option Nat
  columns : Option (List String)
  rechunk : Bool
  row_index : Option RowIndex
  path : Option String
deriving DecidableEq, Repr

def CsvReadOptions.with_skip_rows_after_header (o : CsvReadOptions) (n : Nat) :
    CsvReadOptions :=
  { o with skip_rows_after_header := n }

def CsvReadOptions.with_schema_overwrite (o : CsvReadOptions) (s : Option Schema) :
    CsvReadOptions :=
  { o with schema_overwrite := s }

def CsvReadOptions.with_n_rows (o : CsvReadOptions) (n : Option Nat) :
    CsvReadOptions :=
  { o with n_rows := n }

def CsvReadOptions.with_columns (o : CsvReadOptions) (c : Option (List String)) :
    CsvReadOptions :=
  { o with columns := c }

def CsvReadOptions.with_rechunk (o : CsvReadOptions) (b : Bool) : CsvReadOptions :=
  { o with rechunk := b }

def CsvReadOptions.with_row_index (o : CsvReadOptions) (r : Option RowIndex) :
    CsvReadOptions :=
  { o with row_index := r }

def CsvReadOptions.with_path (o : CsvReadOptions) (p : Option String) :
    CsvReadOptions :=
  { o with path := p }

/-- The fields of `FileScanOptions` that `csv.rs` reads. -/
structure FileScanOptions where
  with_columns : Option (List String)
  n_rows : Option Nat
  row_index : Option RowIndex
deriving DecidableEq, Repr

/-- Process-wide state: the `Box::leak` / `Box::from_raw` ledger (ids of
leaked heap allocations and of the ones dropped again) and the global
chunk-index counter, plus the verbose-mode diagnostic log of chunk sizes. -/
structure World where
  nextId : Nat
  allocated : List Nat
  freed : List Nat
  counter : Nat
  log : List Nat
deriving DecidableEq, Repr

/-- `Box::leak`: allocate a fresh heap resource, returning its id. -/
def World.alloc (w : World) : Nat × World :=
  (w.nextId,
   { w with nextId := w.nextId + 1, allocated := w.allocated ++ [w.nextId] })

/-- Dropping a `Box::from_raw`: release the heap resource with the given id. -/
def World.free (w : World) (id : Nat) : World :=
  { w with freed := w.freed ++ [id] }

/-- Modelled from the spec: `get_source_index` (defined in the enclosing
`sources` module, not under `src/`) is the global chunk-index allocator, an
`AtomicU32` `fetch_add`: it atomically adds `add` to the process-wide counter
and returns the pre-increment value (spec section 4.5). -/
def get_source_index (add : Nat) (w : World) : Nat × World :=
  (w.counter, { w with counter := (w.counter + add) % U32MOD })

/-- Modelled from the spec: `_set_n_rows_for_scan` (crate `polars-plan`, not
under `src/`) applies the process-wide scan row-limit override to the
per-scan limit, further restricting it (spec sections 4.3 and 6). -/
def set_n_rows_for_scan (globalLimit : Option Nat) (n : Option Nat) : Option Nat :=
  match globalLimit with
  | none => n
  | some g =>
    match n with
    | none => some g
    | some m => some (min m g)

/-- Length of the projection list, `0` when absent (lines 37-41 of
`csv.rs`: the side-effecting `as_ref().map` that records `columns.len()`). -/
def projectedLen (wc : Option (List String)) : Nat :=
  match wc with
  | some columns => columns.length
  | none => 0

/-- Lines 47-51 of `csv.rs`: the column count used for chunk sizing is the
projected length when positive, otherwise the full schema width. -/
def resolve_n_cols (wc : Option (List String)) (schemaLen : Nat) : Nat :=
  if projectedLen wc > 0 then projectedLen wc else schemaLen

/-- Modelled from the spec: `determine_chunk_size` (crate::pipeline, not
under `src/`) is a pure function of the projected column count and the
thread count, antitone in both, always positive (spec section 4.2). -/
def determine_chunk_size (n_cols n_threads : Nat) : Nat :=
  max (50000 / max n_cols 1 / max n_threads 1) 1

/-- External effects oracle: whether `try_into_reader_with_file_path`
succeeds, whether `batched_borrowed_read` / `batched_borrowed_mmap` succeeds,
the process-wide scan row limit, and `POOL.current_num_threads()`. -/
structure Env where
  openOk : Bool
  batchedOk : Bool
  global_n_rows : Option Nat
  pool_threads : Nat
deriving DecidableEq, Repr

/-- The answer of one `next_batches(n)` call of the active batched reader
(an external polars-io component): an error, end of input (`None`), or a
sequence of decoded batches. -/
inductive DecAnswer where
  | err : DecAnswer
  | none : DecAnswer
  | some : List DataFrame → DecAnswer
deriving DecidableEq, Repr

/-- The `CsvSource` struct (lines 14-26 of `csv.rs`).  `reader` holds the id
of the leaked `CsvReader` box together with its (modelled) contents;
`batched_reader` holds the leaked batched-reader box id, tagged by variant. -/
structure CsvSource where
  schema : Schema
  reader : Option (Nat × CsvReadOptions)
  batched_reader : Option (Either Nat Nat)
  n_threads : Nat
  path : Option String
  options : Option CsvReadOptions
  file_options : Option FileScanOptions
  verbose : Bool
deriving DecidableEq, Repr

/-- Outcome of `init_reader` (`PolarsResult<()>` plus the mutations of
`&mut self` and of the heap, with `unwrap` panics made explicit). -/
inductive InitResult where
  | ok : CsvSource → World → InitResult
  | err : CsvSource → World → InitResult
  | panic : InitResult
deriving DecidableEq, Repr

/-- Outcome of `get_batches` (`PolarsResult<SourceResult>` plus the mutated
operator and world; `unwrap` panics made explicit). -/
inductive BatchesResult where
  | ok : SourceResult → CsvSource → World → BatchesResult
  | err : CsvSource → World → BatchesResult
  | panic : BatchesResult
deriving DecidableEq, Repr

/-- `CsvSource::init_reader` (lines 32-93 of `csv.rs`), one `let` per source
statement.  `self.options.take().unwrap()` and the two following takes set
the field to `None` and panic when it already was `None`.  The chunk size is
computed (and logged when verbose) but, exactly as in the source, not used
further.  `Box::leak` of the reader happens before the batched reader is
built, so a failure of `batched_borrowed_*` leaves the reader allocation
unrecorded. -/
def CsvSource.init_reader (env : Env) (s : CsvSource) (w : World) : InitResult :=
  match s.options with
  | Option.none => InitResult.panic
  | Option.some options =>
    let s := { s with options := Option.none }
    match s.file_options with
    | Option.none => InitResult.panic
    | Option.some file_options =>
      let s := { s with file_options := Option.none }
      match s.path with
      | Option.none => InitResult.panic
      | Option.some path =>
        let s := { s with path := Option.none }
        let projected_len := projectedLen file_options.with_columns
        let with_columns :=
          if projected_len = 0 then Option.none else file_options.with_columns
        let n_cols := resolve_n_cols file_options.with_columns s.schema.length
        let n_rows := set_n_rows_for_scan env.global_n_rows file_options.n_rows
        let chunk_size := determine_chunk_size n_cols env.pool_threads
        let w := if s.verbose then { w with log := w.log ++ [chunk_size] } else w
        let low_memory := options.low_memory
        let reader_opts :=
          ((((((options.with_skip_rows_after_header 0).with_schema_overwrite
            (Option.some s.schema)).with_n_rows n_rows).with_columns
            with_columns).with_rechunk false).with_row_index
            file_options.row_index).with_path (Option.some path)
        match env.openOk with
        | false => InitResult.err s w  -- try_into_reader_with_file_path fails
        | true =>
          let a1 := w.alloc  -- Box::leak(reader), owns the open file
          let rid := a1.1
          let w := a1.2
          match env.batchedOk with
          | false => InitResult.err s w  -- batched_borrowed_* fails; rid lost
          | true =>
            let a2 := w.alloc  -- Box::leak(batched reader)
            let bid := a2.1
            let w := a2.2
            let batched_reader :=
              if low_memory then Either.right bid else Either.left bid
            InitResult.ok
              { s with reader := Option.some (rid, reader_opts),
                       batched_reader := Option.some batched_reader } w

/-- `CsvSource::new` (lines 95-112 of `csv.rs`).  The source returns
`Ok(Self { .. })` unconditionally; no file is touched, so the world is passed
through unchanged. -/
def CsvSource.new (env : Env) (path : String) (schema : Schema)
    (options : CsvReadOptions) (file_options : FileScanOptions)
    (verbose : Bool) (w : World) : CsvSource × World :=
  ({ schema := schema,
     reader := Option.none,
     batched_reader := Option.none,
     n_threads := env.pool_threads,
     path := Option.some path,
     options := Option.some options,
     file_options := Option.some file_options,
     verbose := verbose }, w)

/-- `impl Drop for CsvSource` (lines 115-133 of `csv.rs`): drop the batched
reader box (either variant) first, then the reader box; nothing when the
respective field was never set. -/
def CsvSource.drop (s : CsvSource) (w : World) : World :=
  let w :=
    match s.batched_reader with
    | Option.some (Either.left ptr) => w.free ptr
    | Option.some (Either.right ptr) => w.free ptr
    | Option.none => w  -- nothing initialized, nothing to drop
  match s.reader with
  | Option.some r => w.free r.1
  | Option.none => w

/-- The `enumerate_u32().map(..)` chain of lines 160-167: stamp the `i`-th
batch with `(index + i) as IdxSize`. -/
def stampChunks (index : Nat) : Nat → List DataFrame → List DataChunk
  | _, [] => []
  | i, d :: rest =>
    { chunk_index := (index + i) % U32MOD, data := d } :: stampChunks index (i + 1) rest

/-- First atomic allocator interaction of the stamping section (line 159):
`let index = get_source_index(0)`.  Returns the batch list paired with the
base index, plus the world after the (no-op) fetch-add. -/
def stampStart (batches : List DataFrame) (w : World) :
    (List DataFrame × Nat) × World :=
  let p := get_source_index 0 w
  ((batches, p.1), p.2)

/-- Rest of the stamping section (lines 160-168): build the chunk list from
the recorded base, then `get_source_index(out.len() as u32)` — the second,
separate atomic allocator interaction. -/
def stampFinish (ss : List DataFrame × Nat) (w : World) :
    List DataChunk × World :=
  let out := stampChunks ss.2 0 ss.1
  let w := (get_source_index (out.length % U32MOD) w).2
  (out, w)

/-- `Source::get_batches` for `CsvSource` (lines 139-172 of `csv.rs`).
`dec` is the external decoder oracle: `dec s.n_threads` is the answer of
`next_batches(self.n_threads)` on the active variant (both match arms of the
source make that same call).  `self.batched_reader.unwrap()` on `None`
panics.  The stamping section is the sequential composition of `stampStart`
and `stampFinish`. -/
def CsvSource.get_batches (env : Env) (dec : Nat → DecAnswer)
    (s : CsvSource) (w : World) : BatchesResult :=
  match (match s.reader with
         | Option.none => CsvSource.init_reader env s w  -- if reader.is_none()
         | Option.some _ => InitResult.ok s w) with
  | InitResult.panic => BatchesResult.panic
  | InitResult.err s w => BatchesResult.err s w
  | InitResult.ok s w =>
    match s.batched_reader with
    | Option.none => BatchesResult.panic  -- self.batched_reader.unwrap()
    | Option.some _ =>
      match dec s.n_threads with
      | DecAnswer.err => BatchesResult.err s w  -- next_batches(..)?
      | DecAnswer.none => BatchesResult.ok SourceResult.Finished s w
      | DecAnswer.some batches =>
        let p := stampStart batches w
        let q := stampFinish p.1 p.2
        BatchesResult.ok (SourceResult.GotMoreData q.1) s q.2

/-- `Source::fmt` (lines 173-175). -/
def CsvSource.fmt (_s : CsvSource) : String := "csv"

/-! ## Concrete fixtures (used by counterexamples and witnesses) -/

def w₀ : World := { nextId := 0, allocated := [], freed := [], counter := 0, log := [] }

def env₀ : Env :=
  { openOk := true, batchedOk := true, global_n_rows := Option.none, pool_threads := 4 }

def envOpenFail : Env := { env₀ with openOk := false }

def envBatchFail : Env := { env₀ with batchedOk := false }

def schema₀ : Schema := ["a", "b", "c", "d", "e"]

def options₀ : CsvReadOptions :=
  { low_memory := false, skip_rows_after_header := 1, schema_overwrite := Option.none,
    n_rows := Option.none, columns := Option.none, rechunk := true,
    row_index := Option.none, path := Option.none }

def fileopts₀ : FileScanOptions :=
  { with_columns := Option.none, n_rows := Option.none, row_index := Option.none }

def src₀ : CsvSource := (CsvSource.new env₀ "data.csv" schema₀ options₀ fileopts₀ false w₀).1

/-- The reader options actually handed to the reader when `src₀` initializes. -/
def ropts₀ : CsvReadOptions :=
  { low_memory := false, skip_rows_after_header := 0, schema_overwrite := Option.some schema₀,
    n_rows := Option.none, columns := Option.none, rechunk := false,
    row_index := Option.none, path := Option.some "data.csv" }

/-- `src₀` after a successful first initialization. -/
def sInit : CsvSource :=
  { schema := schema₀, reader := Option.some (0, ropts₀),
    batched_reader := Option.some (Either.left 1), n_threads := 4,
    path := Option.none, options := Option.none, file_options := Option.none,
    verbose := false }

/-- The world after `src₀` initializes successfully from `w₀`. -/
def wInit : World := { nextId := 2, allocated := [0, 1], freed := [], counter := 0, log := [] }

/-- `src₀` after a failed initialization: configuration consumed, nothing set. -/
def sFail : CsvSource :=
  { schema := schema₀, reader := Option.none, batched_reader := Option.none,
    n_threads := 4, path := Option.none, options := Option.none,
    file_options := Option.none, verbose := false }

/-- World after an initialization that opened the reader but failed to build
the batched reader: allocation `0` recorded, nothing freed. -/
def wBatchFail : World := { nextId := 1, allocated := [0], freed := [], counter := 0, log := [] }

/-- Scan options carrying an empty (length-0) projection list. -/
def fileoptsProj : FileScanOptions :=
  { with_columns := Option.some [], n_rows := Option.none, row_index := Option.none }

/-- Operator configured with the empty projection list. -/
def srcProj : CsvSource :=
  (CsvSource.new env₀ "data.csv" schema₀ options₀ fileoptsProj false w₀).1

/-- Chunks stamped by a first sequential call decoding two batches from
counter 0. -/
def outSeq1 : List DataChunk :=
  [{ chunk_index := 0, data := ⟨7⟩ }, { chunk_index := 1, data := ⟨8⟩ }]

/-- Chunks stamped by the following sequential call decoding one batch. -/
def outSeq2 : List DataChunk := [{ chunk_index := 2, data := ⟨9⟩ }]

/-- World after the first sequential call: counter advanced to 2. -/
def wSeq1 : World := { nextId := 2, allocated := [0, 1], freed := [], counter := 2, log := [] }

/-- World after the second sequential call: counter advanced to 3. -/
def wSeq2 : World := { nextId := 2, allocated := [0, 1], freed := [], counter := 3, log := [] }

/-! ## Helper lemmas -/

/-- World after the (possible) verbose chunk-size log inside `init_reader`. -/
def logWorld (v : Bool) (fo : FileScanOptions) (sc : Schema) (pt : Nat) (w : World) :
    World :=
  if v then
    { w with log := w.log ++ [determine_chunk_size (resolve_n_cols fo.with_columns sc.length) pt] }
  else w

/-- The reader options produced by the builder chain of lines 63-76. -/
def finalReaderOpts (o : CsvReadOptions) (fo : FileScanOptions) (p : String)
    (sc : Schema) (gnr : Option Nat) : CsvReadOptions :=
  ((((((o.with_skip_rows_after_header 0).with_schema_overwrite
    (Option.some sc)).with_n_rows (set_n_rows_for_scan gnr fo.n_rows)).with_columns
    (if projectedLen fo.with_columns = 0 then Option.none else fo.with_columns)).with_rechunk
    false).with_row_index fo.row_index).with_path (Option.some p)

lemma logWorld_nextId (v : Bool) (fo : FileScanOptions) (sc : Schema) (pt : Nat)
    (w : World) : (logWorld v fo sc pt w).nextId = w.nextId := by
  cases v <;> rfl

lemma logWorld_allocated (v : Bool) (fo : FileScanOptions) (sc : Schema) (pt : Nat)
    (w : World) : (logWorld v fo sc pt w).allocated = w.allocated := by
  cases v <;> rfl

lemma logWorld_freed (v : Bool) (fo : FileScanOptions) (sc : Schema) (pt : Nat)
    (w : World) : (logWorld v fo sc pt w).freed = w.freed := by
  cases v <;> rfl

lemma logWorld_counter (v : Bool) (fo : FileScanOptions) (sc : Schema) (pt : Nat)
    (w : World) : (logWorld v fo sc pt w).counter = w.counter := by
  cases v <;> rfl

/-- `init_reader` when the open itself fails: the taken configuration is
gone, nothing was allocated. -/
lemma init_reader_openFail (bok : Bool) (gnr : Option Nat) (pt : Nat) (sc : Schema)
    (rdr : Option (Nat × CsvReadOptions)) (bat : Option (Either Nat Nat)) (nt : Nat)
    (p : String) (o : CsvReadOptions) (fo : FileScanOptions) (v : Bool) (w : World) :
    CsvSource.init_reader { openOk := false, batchedOk := bok, global_n_rows := gnr, pool_threads := pt }
      { schema := sc, reader := rdr, batched_reader := bat, n_threads := nt,
        path := Option.some p, options := Option.some o, file_options := Option.some fo,
        verbose := v } w =
    InitResult.err
      { schema := sc, reader := rdr, batched_reader := bat, n_threads := nt,
        path := Option.none, options := Option.none, file_options := Option.none,
        verbose := v }
      (logWorld v fo sc pt w) := rfl

/-- `init_reader` when the open succeeds but building the batched reader
fails: the reader box was already leaked (one allocation) and is not
recorded anywhere. -/
lemma init_reader_batchFail (gnr : Option Nat) (pt : Nat) (sc : Schema)
    (rdr : Option (Nat × CsvReadOptions)) (bat : Option (Either Nat Nat)) (nt : Nat)
    (p : String) (o : CsvReadOptions) (fo : FileScanOptions) (v : Bool) (w : World) :
    CsvSource.init_reader { openOk := true, batchedOk := false, global_n_rows := gnr, pool_threads := pt }
      { schema := sc, reader := rdr, batched_reader := bat, n_threads := nt,
        path := Option.some p, options := Option.some o, file_options := Option.some fo,
        verbose := v } w =
    InitResult.err
      { schema := sc, reader := rdr, batched_reader := bat, n_threads := nt,
        path := Option.none, options := Option.none, file_options := Option.none,
        verbose := v }
      ((logWorld v fo sc pt w).alloc).2 := rfl

/-- Operator state after a fully successful `init_reader` run from a
configured state with schema `sc`, thread count `nt` and verbosity `v`. -/
def postInitState (gnr : Option Nat) (pt : Nat) (sc : Schema) (nt : Nat)
    (o : CsvReadOptions) (fo : FileScanOptions) (p : String) (v : Bool)
    (w : World) : CsvSource :=
  { schema := sc,
    reader := Option.some ((logWorld v fo sc pt w).nextId, finalReaderOpts o fo p sc gnr),
    batched_reader := Option.some
      (if o.low_memory then Either.right ((logWorld v fo sc pt w).nextId + 1)
       else Either.left ((logWorld v fo sc pt w).nextId + 1)),
    n_threads := nt, path := Option.none, options := Option.none,
    file_options := Option.none, verbose := v }

/-- World after a fully successful `init_reader`: the possible verbose log,
then the reader allocation, then the batched-reader allocation. -/
def postInitWorld (pt : Nat) (sc : Schema) (fo : FileScanOptions) (v : Bool)
    (w : World) : World :=
  ((((logWorld v fo sc pt w).alloc).2).alloc).2

/-- `init_reader` on full success: the configuration is consumed, the reader
and batched-reader ids are the two fresh allocations, and the variant tag
follows `low_memory`. -/
lemma init_reader_ok_eq (gnr : Option Nat) (pt : Nat) (sc : Schema)
    (rdr : Option (Nat × CsvReadOptions)) (bat : Option (Either Nat Nat)) (nt : Nat)
    (p : String) (o : CsvReadOptions) (fo : FileScanOptions) (v : Bool) (w : World) :
    CsvSource.init_reader { openOk := true, batchedOk := true, global_n_rows := gnr, pool_threads := pt }
      { schema := sc, reader := rdr, batched_reader := bat, n_threads := nt,
        path := Option.some p, options := Option.some o, file_options := Option.some fo,
        verbose := v } w =
    InitResult.ok (postInitState gnr pt sc nt o fo p v w) (postInitWorld pt sc fo v w) := rfl

/-- When the reader is already set, `get_batches` skips initialization and
dispatches on the decoder answer; the operator state is passed through
unchanged, and only the stamping section touches the world. -/
lemma get_batches_inited (env : Env) (dec : Nat → DecAnswer) (sc : Schema)
    (r : Nat × CsvReadOptions) (bat : Option (Either Nat Nat)) (nt : Nat)
    (sp : Option String) (so : Option CsvReadOptions) (sfo : Option FileScanOptions)
    (v : Bool) (w : World) :
    CsvSource.get_batches env dec
      { schema := sc, reader := Option.some r, batched_reader := bat, n_threads := nt,
        path := sp, options := so, file_options := sfo, verbose := v } w =
      (match bat with
       | Option.none => BatchesResult.panic
       | Option.some _ =>
         match dec nt with
         | DecAnswer.err =>
           BatchesResult.err
             { schema := sc, reader := Option.some r, batched_reader := bat, n_threads := nt,
               path := sp, options := so, file_options := sfo, verbose := v } w
         | DecAnswer.none =>
           BatchesResult.ok SourceResult.Finished
             { schema := sc, reader := Option.some r, batched_reader := bat, n_threads := nt,
               path := sp, options := so, file_options := sfo, verbose := v } w
         | DecAnswer.some batches =>
           BatchesResult.ok (SourceResult.GotMoreData (stampChunks w.counter 0 batches))
             { schema := sc, reader := Option.some r, batched_reader := bat, n_threads := nt,
               path := sp, options := so, file_options := sfo, verbose := v }
             { w with counter := ((w.counter + 0) % U32MOD +
                 (stampChunks w.counter 0 batches).length % U32MOD) % U32MOD }) := rfl

/-- Uninitialized `get_batches` when the open fails: the initialization
error propagates, with the consumed configuration. -/
lemma get_batches_uninit_openFail (bok : Bool) (gnr : Option Nat) (pt : Nat)
    (dec : Nat → DecAnswer) (sc : Schema) (bat : Option (Either Nat Nat)) (nt : Nat)
    (p : String) (o : CsvReadOptions) (fo : FileScanOptions) (v : Bool) (w : World) :
    CsvSource.get_batches { openOk := false, batchedOk := bok, global_n_rows := gnr, pool_threads := pt } dec
      { schema := sc, reader := Option.none, batched_reader := bat, n_threads := nt,
        path := Option.some p, options := Option.some o, file_options := Option.some fo,
        verbose := v } w =
    BatchesResult.err
      { schema := sc, reader := Option.none, batched_reader := bat, n_threads := nt,
        path := Option.none, options := Option.none, file_options := Option.none,
        verbose := v }
      (logWorld v fo sc pt w) := rfl

/-- Uninitialized `get_batches` when the batched-reader construction fails:
the error propagates after one (unrecorded) allocation. -/
lemma get_batches_uninit_batchFail (gnr : Option Nat) (pt : Nat)
    (dec : Nat → DecAnswer) (sc : Schema) (bat : Option (Either Nat Nat)) (nt : Nat)
    (p : String) (o : CsvReadOptions) (fo : FileScanOptions) (v : Bool) (w : World) :
    CsvSource.get_batches { openOk := true, batchedOk := false, global_n_rows := gnr, pool_threads := pt } dec
      { schema := sc, reader := Option.none, batched_reader := bat, n_threads := nt,
        path := Option.some p, options := Option.some o, file_options := Option.some fo,
        verbose := v } w =
    BatchesResult.err
      { schema := sc, reader := Option.none, batched_reader := bat, n_threads := nt,
        path := Option.none, options := Option.none, file_options := Option.none,
        verbose := v }
      (((logWorld v fo sc pt w).alloc).2) := rfl

/-- Uninitialized `get_batches` on a fully successful initialization:
dispatch on the decoder answer from the post-initialization state. -/
lemma get_batches_uninit_ok (gnr : Option Nat) (pt : Nat)
    (dec : Nat → DecAnswer) (sc : Schema) (bat : Option (Either Nat Nat)) (nt : Nat)
    (p : String) (o : CsvReadOptions) (fo : FileScanOptions) (v : Bool) (w : World) :
    CsvSource.get_batches { openOk := true, batchedOk := true, global_n_rows := gnr, pool_threads := pt } dec
      { schema := sc, reader := Option.none, batched_reader := bat, n_threads := nt,
        path := Option.some p, options := Option.some o, file_options := Option.some fo,
        verbose := v } w =
      (match dec nt with
       | DecAnswer.err =>
         BatchesResult.err (postInitState gnr pt sc nt o fo p v w) (postInitWorld pt sc fo v w)
       | DecAnswer.none =>
         BatchesResult.ok SourceResult.Finished (postInitState gnr pt sc nt o fo p v w)
           (postInitWorld pt sc fo v w)
       | DecAnswer.some batches =>
         BatchesResult.ok
           (SourceResult.GotMoreData (stampChunks (postInitWorld pt sc fo v w).counter 0 batches))
           (postInitState gnr pt sc nt o fo p v w)
           { postInitWorld pt sc fo v w with
             counter := (((postInitWorld pt sc fo v w).counter + 0) % U32MOD +
               (stampChunks (postInitWorld pt sc fo v w).counter 0 batches).length % U32MOD) % U32MOD }) := rfl

/-- Uninitialized `get_batches` with an already-consumed configuration
panics (the `take().unwrap()` at the top of `init_reader`). -/
lemma get_batches_uninit_noConfig (env : Env) (dec : Nat → DecAnswer) (sc : Schema)
    (bat : Option (Either Nat Nat)) (nt : Nat) (sp : Option String)
    (sfo : Option FileScanOptions) (v : Bool) (w : World) :
    CsvSource.get_batches env dec
      { schema := sc, reader := Option.none, batched_reader := bat, n_threads := nt,
        path := sp, options := Option.none, file_options := sfo, verbose := v } w =
    BatchesResult.panic := rfl

lemma postInitWorld_counter (pt : Nat) (sc : Schema) (fo : FileScanOptions)
    (v : Bool) (w : World) : (postInitWorld pt sc fo v w).counter = w.counter := by
  cases v <;> rfl

lemma postInitWorld_nextId (pt : Nat) (sc : Schema) (fo : FileScanOptions)
    (v : Bool) (w : World) : (postInitWorld pt sc fo v w).nextId = w.nextId + 2 := by
  cases v <;> rfl

lemma postInitWorld_freed (pt : Nat) (sc : Schema) (fo : FileScanOptions)
    (v : Bool) (w : World) : (postInitWorld pt sc fo v w).freed = w.freed := by
  cases v <;> rfl

lemma postInitWorld_allocated (pt : Nat) (sc : Schema) (fo : FileScanOptions)
    (v : Bool) (w : World) :
    (postInitWorld pt sc fo v w).allocated = w.allocated ++ [w.nextId, w.nextId + 1] := by
  cases v <;> simp [postInitWorld, logWorld, World.alloc]

lemma stampChunks_length (index : Nat) : ∀ (i : Nat) (bs : List DataFrame),
    (stampChunks index i bs).length = bs.length := by
  intro i bs
  induction bs generalizing i with
  | nil => rfl
  | cons d rest ih => simp [stampChunks, ih]

lemma stampChunks_get (index : Nat) : ∀ (bs : List DataFrame) (i j : Nat)
    (h : j < (stampChunks index i bs).length) (h' : j < bs.length),
    (stampChunks index i bs).get ⟨j, h⟩ =
      { chunk_index := (index + (i + j)) % U32MOD, data := bs.get ⟨j, h'⟩ } := by
  intro bs
  induction bs with
  | nil => intro i j h h'; simp at h'
  | cons d rest ih =>
    intro i j h h'
    cases j with
    | zero => rfl
    | succ j' =>
      have hr' : j' < rest.length := by
        have hx := h
        rw [stampChunks_length] at hx
        simpa using Nat.lt_of_succ_lt_succ hx
      have hr : j' < (stampChunks index (i + 1) rest).length := by
        rw [stampChunks_length]; exact hr'
      have step : (stampChunks index i (d :: rest)).get ⟨j' + 1, h⟩ =
          (stampChunks index (i + 1) rest).get ⟨j', hr⟩ := rfl
      rw [step, ih (i + 1) j' hr hr']
      have harith : i + 1 + j' = i + (j' + 1) := by omega
      rw [harith]
      rfl

/-- The chunk at position `j` of one stamped group carries index
`(base + j) mod 2^32`. -/
lemma stamp_out_get (c : Nat) (bs : List DataFrame) (j : Nat)
    (h : j < (stampChunks c 0 bs).length) (h' : j < bs.length) :
    ((stampChunks c 0 bs).get ⟨j, h⟩).chunk_index = (c + j) % U32MOD := by
  rw [stampChunks_get c bs 0 j h h', Nat.zero_add]

/-- An already-initialized operator is returned unchanged by every non-panic
`get_batches` outcome, and the heap ledger is untouched (no allocation, no
free): only the chunk counter can move. -/
lemma get_batches_ok_state (env : Env) (dec : Nat → DecAnswer) (s : CsvSource)
    (w : World) (res : SourceResult) (s' : CsvSource) (w' : World)
    (r : Nat × CsvReadOptions) (hr : s.reader = Option.some r)
    (h : CsvSource.get_batches env dec s w = BatchesResult.ok res s' w') :
    s' = s ∧ w'.allocated = w.allocated ∧ w'.nextId = w.nextId ∧ w'.freed = w.freed := by
  obtain ⟨sc, rdr, bat, nt, sp, so, sfo, v⟩ := s
  change rdr = Option.some r at hr
  subst hr
  rw [get_batches_inited] at h
  cases bat with
  | none => exact BatchesResult.noConfusion h
  | some e =>
    cases hdec : dec nt with
    | err => rw [hdec] at h; exact BatchesResult.noConfusion h
    | none =>
      rw [hdec] at h
      injection h with h1 h2 h3
      subst h2; subst h3
      exact ⟨rfl, rfl, rfl, rfl⟩
    | some bs =>
      rw [hdec] at h
      injection h with h1 h2 h3
      subst h2; subst h3
      exact ⟨rfl, rfl, rfl, rfl⟩

/-- Same as `get_batches_ok_state` for the error outcome (decoder failure):
state and world are unchanged. -/
lemma get_batches_err_state (env : Env) (dec : Nat → DecAnswer) (s : CsvSource)
    (w : World) (s' : CsvSource) (w' : World)
    (r : Nat × CsvReadOptions) (hr : s.reader = Option.some r)
    (h : CsvSource.get_batches env dec s w = BatchesResult.err s' w') :
    s' = s ∧ w' = w := by
  obtain ⟨sc, rdr, bat, nt, sp, so, sfo, v⟩ := s
  change rdr = Option.some r at hr
  subst hr
  rw [get_batches_inited] at h
  cases bat with
  | none => exact BatchesResult.noConfusion h
  | some e =>
    cases hdec : dec nt with
    | err =>
      rw [hdec] at h
      injection h with h1 h2
      subst h1; subst h2
      exact ⟨rfl, rfl⟩
    | none => rw [hdec] at h; exact BatchesResult.noConfusion h
    | some bs => rw [hdec] at h; exact BatchesResult.noConfusion h

/-- Every `GotMoreData` outcome of `get_batches` is a stamped group whose
base index is the chunk counter at the start of the call. -/
lemma gotmore_shape (env : Env) (dec : Nat → DecAnswer) (s : CsvSource) (w : World)
    (out : List DataChunk) (s' : CsvSource) (w' : World)
    (h : CsvSource.get_batches env dec s w =
      BatchesResult.ok (SourceResult.GotMoreData out) s' w') :
    ∃ bs, out = stampChunks w.counter 0 bs := by
  obtain ⟨sc, rdr, bat, nt, sp, so, sfo, v⟩ := s
  obtain ⟨oOk, bOk, gnr, pt⟩ := env
  cases rdr with
  | some r =>
    rw [get_batches_inited] at h
    cases bat with
    | none => exact BatchesResult.noConfusion h
    | some e =>
      cases hdec : dec nt with
      | err => rw [hdec] at h; exact BatchesResult.noConfusion h
      | none =>
        rw [hdec] at h
        injection h with h1 h2 h3
        exact SourceResult.noConfusion h1
      | some bs =>
        rw [hdec] at h
        injection h with h1 h2 h3
        injection h1 with h4
        exact ⟨bs, h4.symm⟩
  | none =>
    cases so with
    | none => exact BatchesResult.noConfusion h
    | some o =>
      cases sfo with
      | none => exact BatchesResult.noConfusion h
      | some fo =>
        cases sp with
        | none => exact BatchesResult.noConfusion h
        | some p =>
          cases oOk with
          | false =>
            rw [get_batches_uninit_openFail] at h
            exact BatchesResult.noConfusion h
          | true =>
            cases bOk with
            | false =>
              rw [get_batches_uninit_batchFail] at h
              exact BatchesResult.noConfusion h
            | true =>
              rw [get_batches_uninit_ok] at h
              cases hdec : dec nt with
              | err => rw [hdec] at h; exact BatchesResult.noConfusion h
              | none =>
                rw [hdec] at h
                injection h with h1 h2 h3
                exact SourceResult.noConfusion h1
              | some bs =>
                rw [hdec] at h
                injection h with h1 h2 h3
                injection h1 with h4
                refine ⟨bs, ?_⟩
                rw [← h4, postInitWorld_counter]

/-- A decoder answer `some bs` on an initialized operator yields the stamped
group based at the current counter, and the only world change is the counter
moving forward by `bs.length` (mod 2^32). -/
lemma get_batches_some_spec (env : Env) (dec : Nat → DecAnswer) (sc : Schema)
    (r : Nat × CsvReadOptions) (e : Either Nat Nat) (nt : Nat) (sp : Option String)
    (so : Option CsvReadOptions) (sfo : Option FileScanOptions) (v : Bool)
    (w : World) (bs : List DataFrame) (hd : dec nt = DecAnswer.some bs) :
    ∃ w' : World,
      CsvSource.get_batches env dec
        { schema := sc, reader := Option.some r, batched_reader := Option.some e,
          n_threads := nt, path := sp, options := so, file_options := sfo,
          verbose := v } w =
        BatchesResult.ok (SourceResult.GotMoreData (stampChunks w.counter 0 bs))
          { schema := sc, reader := Option.some r, batched_reader := Option.some e,
            n_threads := nt, path := sp, options := so, file_options := sfo,
            verbose := v } w' ∧
      w'.counter = ((w.counter + 0) % U32MOD + bs.length % U32MOD) % U32MOD ∧
      w'.nextId = w.nextId ∧ w'.allocated = w.allocated ∧ w'.freed = w.freed := by
  refine ⟨{ w with counter := ((w.counter + 0) % U32MOD +
      (stampChunks w.counter 0 bs).length % U32MOD) % U32MOD }, ?_, ?_, rfl, rfl, rfl⟩
  · rw [get_batches_inited, hd]
  · show ((w.counter + 0) % U32MOD +
      (stampChunks w.counter 0 bs).length % U32MOD) % U32MOD = _
    rw [stampChunks_length]

/-! ## Claim theorems -/

/-- First allocator interaction of a concurrent call A decoding one batch:
A reads its base (`get_source_index 0`). -/
def phaseA1 : (List DataFrame × Nat) × World := stampStart [⟨7⟩] wInit

/-- First allocator interaction of a second, concurrently running call B,
interleaved before A's second interaction: B also reads its base. -/
def phaseA2 : (List DataFrame × Nat) × World := stampStart [⟨9⟩] phaseA1.2

/-- A's remaining work: stamp from its recorded base, then bump the counter
(`get_source_index k`) — the second, separate atomic interaction. -/
def phaseB1 : List DataChunk × World := stampFinish phaseA1.1 phaseA2.2

/-- B's remaining work, after A finished. -/
def phaseB2 : List DataChunk × World := stampFinish phaseA2.1 phaseB1.2

/-- C1 counterexample: the chunk-index allocation inside `get_batches` is
not a single atomic reserve — it is two separate atomic interactions with
the global counter (`get_source_index 0` to read the base, then
`get_source_index k` to advance).  The first conjunct shows, on a concrete
initialized operator, that a `get_batches` call is exactly the sequential
composition `stampFinish ∘ stampStart` of those two interactions.  The
remaining conjuncts interleave the interactions of two concurrent calls as
read-read-bump-bump: both calls observe base 0 and both emit
chunk_index 0 — overlapping ranges, refuting "never emit overlapping
chunk_index values". -/
theorem c1_counterexample :
    CsvSource.get_batches env₀ (fun _ => DecAnswer.some [⟨7⟩]) sInit wInit =
      BatchesResult.ok
        (SourceResult.GotMoreData
          (stampFinish (stampStart [⟨7⟩] wInit).1 (stampStart [⟨7⟩] wInit).2).1)
        sInit (stampFinish (stampStart [⟨7⟩] wInit).1 (stampStart [⟨7⟩] wInit).2).2 ∧
    phaseB1.1.map DataChunk.chunk_index = [0] ∧
    phaseB2.1.map DataChunk.chunk_index = [0] :=
  ⟨rfl, rfl, rfl⟩

/-- C1 amended: the allocation is two separate atomic counter operations —
a read before stamping and an increment by `k` after — so it is a reserve
only when the two operations of a call are not interleaved with another
call's: an uninterleaved call with `k` batches is assigned exactly
`[base, base + k)` from the read value and advances the counter by `k`, and
two sequential calls obtain disjoint, adjacent ranges.  (Interleaved
concurrent calls can overlap; see the counterexample.) -/
theorem c1_amended_thm (env₁ env₂ : Env) (dec₁ dec₂ : Nat → DecAnswer)
    (s : CsvSource) (w : World) (r : Nat × CsvReadOptions) (e : Either Nat Nat)
    (bs₁ bs₂ : List DataFrame) (out₁ out₂ : List DataChunk)
    (s₁ s₂ : CsvSource) (w₁ w₂ : World)
    (hr : s.reader = Option.some r) (hb : s.batched_reader = Option.some e)
    (hd₁ : dec₁ s.n_threads = DecAnswer.some bs₁)
    (hc₁ : CsvSource.get_batches env₁ dec₁ s w =
      BatchesResult.ok (SourceResult.GotMoreData out₁) s₁ w₁)
    (hd₂ : dec₂ s.n_threads = DecAnswer.some bs₂)
    (hc₂ : CsvSource.get_batches env₂ dec₂ s₁ w₁ =
      BatchesResult.ok (SourceResult.GotMoreData out₂) s₂ w₂)
    (hnw : w.counter + bs₁.length + bs₂.length < U32MOD) :
    out₁.length = bs₁.length ∧ out₂.length = bs₂.length ∧
    (∀ (i : Nat) (hi : i < out₁.length),
        (out₁.get ⟨i, hi⟩).chunk_index = w.counter + i) ∧
    (∀ (j : Nat) (hj : j < out₂.length),
        (out₂.get ⟨j, hj⟩).chunk_index = w.counter + bs₁.length + j) ∧
    w₁.counter = w.counter + bs₁.length ∧
    w₂.counter = w.counter + bs₁.length + bs₂.length ∧
    (∀ (i : Nat) (hi : i < out₁.length) (j : Nat) (hj : j < out₂.length),
        (out₁.get ⟨i, hi⟩).chunk_index ≠ (out₂.get ⟨j, hj⟩).chunk_index) := by
  obtain ⟨sc, rdr, bat, nt, sp, so, sfo, v⟩ := s
  change rdr = Option.some r at hr
  change bat = Option.some e at hb
  subst hr
  subst hb
  change dec₁ nt = DecAnswer.some bs₁ at hd₁
  change dec₂ nt = DecAnswer.some bs₂ at hd₂
  obtain ⟨w₁', heq₁, hcnt₁, _, _, _⟩ :=
    get_batches_some_spec env₁ dec₁ sc r e nt sp so sfo v w bs₁ hd₁
  rw [heq₁] at hc₁
  injection hc₁ with h1 h2 h3
  injection h1 with h4
  subst h2
  subst h3
  subst h4
  have hw₁ : w₁'.counter = w.counter + bs₁.length := by
    rw [hcnt₁]
    unfold U32MOD at hnw ⊢
    omega
  obtain ⟨w₂', heq₂, hcnt₂, _, _, _⟩ :=
    get_batches_some_spec env₂ dec₂ sc r e nt sp so sfo v w₁' bs₂ hd₂
  rw [heq₂] at hc₂
  injection hc₂ with h5 h6 h7
  injection h5 with h8
  subst h6
  subst h7
  subst h8
  have hw₂ : w₂'.counter = w.counter + bs₁.length + bs₂.length := by
    rw [hcnt₂, hw₁]
    unfold U32MOD at hnw ⊢
    omega
  have hidx₁ : ∀ (i : Nat) (hi : i < (stampChunks w.counter 0 bs₁).length),
      ((stampChunks w.counter 0 bs₁).get ⟨i, hi⟩).chunk_index = w.counter + i := by
    intro i hi
    have hi' : i < bs₁.length := by rw [stampChunks_length] at hi; exact hi
    rw [stamp_out_get w.counter bs₁ i hi hi']
    have hlt : w.counter + i < U32MOD := by omega
    exact Nat.mod_eq_of_lt hlt
  have hidx₂ : ∀ (j : Nat) (hj : j < (stampChunks w₁'.counter 0 bs₂).length),
      ((stampChunks w₁'.counter 0 bs₂).get ⟨j, hj⟩).chunk_index =
        w.counter + bs₁.length + j := by
    intro j hj
    have hj' : j < bs₂.length := by rw [stampChunks_length] at hj; exact hj
    rw [stamp_out_get w₁'.counter bs₂ j hj hj', hw₁]
    have hlt : w.counter + bs₁.length + j < U32MOD := by omega
    exact Nat.mod_eq_of_lt hlt
  refine ⟨stampChunks_length _ _ _, stampChunks_length _ _ _, hidx₁, hidx₂, hw₁, hw₂, ?_⟩
  intro i hi j hj
  rw [hidx₁ i hi, hidx₂ j hj]
  have hi' : i < bs₁.length := by rw [stampChunks_length] at hi; exact hi
  omega

/-- C1 amended witness: two concrete sequential calls obtain the adjacent
disjoint ranges [0, 2) and [2, 3). -/
theorem c1_amended_witness :
    (outSeq1.length = [(⟨7⟩ : DataFrame), ⟨8⟩].length ∧
     outSeq2.length = [(⟨9⟩ : DataFrame)].length ∧
     (∀ (i : Nat) (hi : i < outSeq1.length),
         (outSeq1.get ⟨i, hi⟩).chunk_index = wInit.counter + i) ∧
     (∀ (j : Nat) (hj : j < outSeq2.length),
         (outSeq2.get ⟨j, hj⟩).chunk_index =
           wInit.counter + [(⟨7⟩ : DataFrame), ⟨8⟩].length + j) ∧
     wSeq1.counter = wInit.counter + [(⟨7⟩ : DataFrame), ⟨8⟩].length ∧
     wSeq2.counter = wInit.counter + [(⟨7⟩ : DataFrame), ⟨8⟩].length +
       [(⟨9⟩ : DataFrame)].length ∧
     (∀ (i : Nat) (hi : i < outSeq1.length) (j : Nat) (hj : j < outSeq2.length),
         (outSeq1.get ⟨i, hi⟩).chunk_index ≠ (outSeq2.get ⟨j, hj⟩).chunk_index)) :=
  c1_amended_thm env₀ env₀ (fun _ => DecAnswer.some [⟨7⟩, ⟨8⟩])
    (fun _ => DecAnswer.some [⟨9⟩]) sInit wInit (0, ropts₀) (Either.left 1)
    [⟨7⟩, ⟨8⟩] [⟨9⟩] outSeq1 outSeq2 sInit sInit wSeq1 wSeq2
    rfl rfl rfl rfl rfl rfl (by decide)

/-- C9: teardown (`CsvSource.drop`) releases the decoder before the reader
(its two frees are appended in that order), and when initialization never
ran (both handles unset) it is a no-op rather than an error.  That teardown
runs exactly once per discarded instance is Rust's `Drop` guarantee, which
the model reflects by making `CsvSource.drop` the unique teardown function
applied to a discarded state. -/
theorem c9_thm :
    (∀ (s : CsvSource) (w : World), s.batched_reader = Option.none →
        s.reader = Option.none → CsvSource.drop s w = w) ∧
    (∀ (s : CsvSource) (w : World) (ptr : Nat) (r : Nat × CsvReadOptions),
        s.batched_reader = Option.some (Either.left ptr) →
        s.reader = Option.some r →
        (CsvSource.drop s w).freed = w.freed ++ [ptr, r.1]) ∧
    (∀ (s : CsvSource) (w : World) (ptr : Nat) (r : Nat × CsvReadOptions),
        s.batched_reader = Option.some (Either.right ptr) →
        s.reader = Option.some r →
        (CsvSource.drop s w).freed = w.freed ++ [ptr, r.1]) := by
  refine ⟨?_, ?_, ?_⟩ <;> intro s w
  · intro hb hr
    unfold CsvSource.drop
    rw [hb, hr]
  · intro ptr r hb hr
    unfold CsvSource.drop
    rw [hb, hr]
    simp [World.free]
  · intro ptr r hb hr
    unfold CsvSource.drop
    rw [hb, hr]
    simp [World.free]

/-- C9 witness: no-op teardown on the never-initialized state `sFail`, and
decoder-before-reader release order on the initialized state `sInit`. -/
theorem c9_witness :
    CsvSource.drop sFail w₀ = w₀ ∧
    (CsvSource.drop sInit wInit).freed = wInit.freed ++ [1, 0] :=
  ⟨c9_thm.1 sFail w₀ rfl rfl, c9_thm.2.1 sInit wInit 1 (0, ropts₀) rfl rfl⟩

/-- C7: construction (`CsvSource.new`) performs no I/O (the world — heap
ledger and counter — is passed through unchanged) and leaves `reader` and
`batched_reader` unset; and a `get_batches` call that finds the reader
already set does not re-initialize: the operator state is returned intact
and nothing is allocated (no file is opened). -/
theorem c7_thm :
    (∀ (env : Env) (p : String) (sc : Schema) (o : CsvReadOptions)
        (fo : FileScanOptions) (v : Bool) (w : World),
        (CsvSource.new env p sc o fo v w).2 = w ∧
        (CsvSource.new env p sc o fo v w).1.reader = Option.none ∧
        (CsvSource.new env p sc o fo v w).1.batched_reader = Option.none) ∧
    (∀ (env : Env) (dec : Nat → DecAnswer) (s : CsvSource) (w : World)
        (r : Nat × CsvReadOptions), s.reader = Option.some r →
        (∀ res s' w', CsvSource.get_batches env dec s w = BatchesResult.ok res s' w' →
            s' = s ∧ w'.allocated = w.allocated ∧ w'.nextId = w.nextId) ∧
        (∀ s' w', CsvSource.get_batches env dec s w = BatchesResult.err s' w' →
            s' = s ∧ w'.allocated = w.allocated ∧ w'.nextId = w.nextId)) := by
  constructor
  · intro env p sc o fo v w
    exact ⟨rfl, rfl, rfl⟩
  · intro env dec s w r hr
    constructor
    · intro res s' w' h
      obtain ⟨h1, h2, h3, _⟩ := get_batches_ok_state env dec s w res s' w' r hr h
      exact ⟨h1, h2, h3⟩
    · intro s' w' h
      obtain ⟨h1, h2⟩ := get_batches_err_state env dec s w s' w' r hr h
      exact ⟨h1, by rw [h2], by rw [h2]⟩

/-- C7 witness: constructing `src₀` touches nothing, and a `get_batches`
call on the already-initialized `sInit` returns it unchanged with no new
allocation. -/
theorem c7_witness :
    ((CsvSource.new env₀ "data.csv" schema₀ options₀ fileopts₀ false w₀).2 = w₀ ∧
     (CsvSource.new env₀ "data.csv" schema₀ options₀ fileopts₀ false w₀).1.reader = Option.none ∧
     (CsvSource.new env₀ "data.csv" schema₀ options₀ fileopts₀ false w₀).1.batched_reader = Option.none) ∧
    (sInit = sInit ∧ wInit.allocated = wInit.allocated ∧ wInit.nextId = wInit.nextId) :=
  ⟨c7_thm.1 env₀ "data.csv" schema₀ options₀ fileopts₀ false w₀,
   ((c7_thm.2 env₀ (fun _ => DecAnswer.none) sInit wInit (0, ropts₀) rfl).1
      SourceResult.Finished sInit wInit rfl)⟩

/-- C6: a successful initialization sets the decoder variant solely from
`low_memory` — `true` yields the `Either.right` (`BatchedCsvReaderRead`,
buffered) tag and `false` the `Either.left` (`BatchedCsvReaderMmap`) tag on
the fresh allocation — and once the reader is set, `get_batches` never
changes `batched_reader`, so the variant is fixed for the operator's
lifetime. -/
theorem c6_thm :
    (∀ (env : Env) (s : CsvSource) (w : World) (s' : CsvSource) (w' : World)
        (o : CsvReadOptions), s.options = Option.some o →
        CsvSource.init_reader env s w = InitResult.ok s' w' →
        s'.batched_reader = Option.some
          (if o.low_memory then Either.right (w.nextId + 1)
           else Either.left (w.nextId + 1))) ∧
    (∀ (env : Env) (dec : Nat → DecAnswer) (s : CsvSource) (w : World)
        (res : SourceResult) (s' : CsvSource) (w' : World)
        (r : Nat × CsvReadOptions), s.reader = Option.some r →
        CsvSource.get_batches env dec s w = BatchesResult.ok res s' w' →
        s'.batched_reader = s.batched_reader) := by
  constructor
  · intro env s w s' w' o ho h
    obtain ⟨sc, rdr, bat, nt, sp, so, sfo, v⟩ := s
    obtain ⟨oOk, bOk, gnr, pt⟩ := env
    change so = Option.some o at ho
    subst ho
    cases sfo with
    | none => exact InitResult.noConfusion h
    | some fo =>
      cases sp with
      | none => exact InitResult.noConfusion h
      | some p =>
        cases oOk with
        | false =>
          rw [init_reader_openFail] at h
          exact InitResult.noConfusion h
        | true =>
          cases bOk with
          | false =>
            rw [init_reader_batchFail] at h
            exact InitResult.noConfusion h
          | true =>
            rw [init_reader_ok_eq] at h
            injection h with h1 h2
            subst h1
            show Option.some _ = _
            rw [logWorld_nextId]
  · intro env dec s w res s' w' r hr h
    obtain ⟨h1, _, _, _⟩ := get_batches_ok_state env dec s w res s' w' r hr h
    rw [h1]

/-- C6 witness: with `low_memory = false` the fresh batched reader is the
`Either.left` (memory-mapped) variant, and a later call leaves the variant
tag unchanged. -/
theorem c6_witness :
    sInit.batched_reader = Option.some
      (if options₀.low_memory then Either.right (w₀.nextId + 1)
       else Either.left (w₀.nextId + 1)) ∧
    sInit.batched_reader = sInit.batched_reader :=
  ⟨c6_thm.1 env₀ src₀ w₀ sInit wInit options₀ rfl rfl,
   c6_thm.2 env₀ (fun _ => DecAnswer.none) sInit wInit SourceResult.Finished sInit wInit
     (0, ropts₀) rfl rfl⟩

/-- C2 counterexample: the claim says a failing `init_reader` leaves the
stored configuration (path, options, file_options) unchanged.  On the
concrete failing first call (open fails), the configuration is gone: the
operator started with `options = some options₀` and ends with
`options = none` (likewise path and file_options). -/
theorem c2_counterexample :
    CsvSource.init_reader envOpenFail src₀ w₀ = InitResult.err sFail w₀ ∧
    src₀.options = Option.some options₀ ∧
    src₀.path = Option.some "data.csv" ∧
    src₀.file_options = Option.some fileopts₀ ∧
    sFail.options = Option.none ∧
    sFail.path = Option.none ∧
    sFail.file_options = Option.none ∧
    ¬ (sFail.options = src₀.options) :=
  ⟨rfl, rfl, rfl, rfl, rfl, rfl, rfl, fun h => Option.noConfusion h⟩

/-- C2 amended: a failing `init_reader` call leaves `reader` and
`batched_reader` unchanged (still unset) — they are committed only on full
success — but the stored configuration (path, options, file_options) is
taken at the start of the call and is `None` afterwards, so the operator is
not left usable for a retry. -/
theorem c2_amended_thm (env : Env) (s : CsvSource) (w : World) (s' : CsvSource)
    (w' : World) (o : CsvReadOptions) (fo : FileScanOptions) (p : String)
    (ho : s.options = Option.some o) (hf : s.file_options = Option.some fo)
    (hp : s.path = Option.some p)
    (h : CsvSource.init_reader env s w = InitResult.err s' w') :
    s'.reader = s.reader ∧ s'.batched_reader = s.batched_reader ∧
    s'.options = Option.none ∧ s'.file_options = Option.none ∧
    s'.path = Option.none := by
  obtain ⟨sc, rdr, bat, nt, sp, so, sfo, v⟩ := s
  obtain ⟨oOk, bOk, gnr, pt⟩ := env
  change so = Option.some o at ho
  change sfo = Option.some fo at hf
  change sp = Option.some p at hp
  subst ho; subst hf; subst hp
  cases oOk with
  | false =>
    rw [init_reader_openFail] at h
    injection h with h1 h2
    subst h1
    exact ⟨rfl, rfl, rfl, rfl, rfl⟩
  | true =>
    cases bOk with
    | false =>
      rw [init_reader_batchFail] at h
      injection h with h1 h2
      subst h1
      exact ⟨rfl, rfl, rfl, rfl, rfl⟩
    | true =>
      rw [init_reader_ok_eq] at h
      exact InitResult.noConfusion h

/-- C2 amended witness: the concrete failing call commits nothing to the
reader fields but consumes the configuration. -/
theorem c2_amended_witness :
    sFail.reader = src₀.reader ∧ sFail.batched_reader = src₀.batched_reader ∧
    sFail.options = Option.none ∧ sFail.file_options = Option.none ∧
    sFail.path = Option.none :=
  c2_amended_thm envOpenFail src₀ w₀ sFail w₀ options₀ fileopts₀ "data.csv"
    rfl rfl rfl rfl

/-- C10: if the first `get_batches` call fails during deferred
initialization (`init_reader` returns an error after taking the stored
configuration), that error is returned, and every subsequent `get_batches`
call on the resulting state panics — the `take().unwrap()` on the
now-`None` configuration — rather than returning an error value. -/
theorem c10_thm (env env' : Env) (dec dec' : Nat → DecAnswer)
    (s s1 : CsvSource) (w w1 w' : World)
    (hr : s.reader = Option.none)
    (hfail : CsvSource.init_reader env s w = InitResult.err s1 w1) :
    CsvSource.get_batches env dec s w = BatchesResult.err s1 w1 ∧
    CsvSource.get_batches env' dec' s1 w' = BatchesResult.panic := by
  obtain ⟨sc, rdr, bat, nt, sp, so, sfo, v⟩ := s
  obtain ⟨oOk, bOk, gnr, pt⟩ := env
  change rdr = Option.none at hr
  subst hr
  cases so with
  | none => exact InitResult.noConfusion hfail
  | some o =>
    cases sfo with
    | none => exact InitResult.noConfusion hfail
    | some fo =>
      cases sp with
      | none => exact InitResult.noConfusion hfail
      | some p =>
        cases oOk with
        | false =>
          rw [init_reader_openFail] at hfail
          injection hfail with h1 h2
          subst h1; subst h2
          obtain ⟨oOk', bOk', gnr', pt'⟩ := env'
          exact ⟨rfl, rfl⟩
        | true =>
          cases bOk with
          | false =>
            rw [init_reader_batchFail] at hfail
            injection hfail with h1 h2
            subst h1; subst h2
            obtain ⟨oOk', bOk', gnr', pt'⟩ := env'
            exact ⟨rfl, rfl⟩
          | true =>
            rw [init_reader_ok_eq] at hfail
            exact InitResult.noConfusion hfail

/-- C10 witness: the concrete failed first call, then the panic on the
retry. -/
theorem c10_witness :
    src₀.reader = Option.none ∧
    CsvSource.init_reader envOpenFail src₀ w₀ = InitResult.err sFail w₀ ∧
    (CsvSource.get_batches envOpenFail (fun _ => DecAnswer.none) src₀ w₀ =
       BatchesResult.err sFail w₀ ∧
     CsvSource.get_batches env₀ (fun _ => DecAnswer.none) sFail w₀ =
       BatchesResult.panic) :=
  ⟨rfl, rfl,
   c10_thm envOpenFail env₀ (fun _ => DecAnswer.none) (fun _ => DecAnswer.none)
     src₀ sFail w₀ w₀ w₀ rfl rfl⟩

/-- C8: during initialization a projection list of length 0 behaves exactly
like an absent projection — `init_reader` gives identical results on both
configurations, the column count used for chunk sizing is the full schema
width in both cases, and the column selection stored into the reader is
`None`. -/
theorem c8_thm (env : Env) (s : CsvSource) (w : World) (fo : FileScanOptions)
    (hf : s.file_options = Option.some fo)
    (hc : fo.with_columns = Option.some []) :
    CsvSource.init_reader env s w =
      CsvSource.init_reader env
        { s with file_options := Option.some { fo with with_columns := Option.none } } w ∧
    resolve_n_cols fo.with_columns s.schema.length = s.schema.length ∧
    resolve_n_cols Option.none s.schema.length = s.schema.length ∧
    (∀ (s' : CsvSource) (w' : World) (rid : Nat) (ropts : CsvReadOptions),
        CsvSource.init_reader env s w = InitResult.ok s' w' →
        s'.reader = Option.some (rid, ropts) → ropts.columns = Option.none) := by
  obtain ⟨sc, rdr, bat, nt, sp, so, sfo, v⟩ := s
  obtain ⟨oOk, bOk, gnr, pt⟩ := env
  change sfo = Option.some fo at hf
  subst hf
  obtain ⟨fwc, fnr, fri⟩ := fo
  change fwc = Option.some [] at hc
  subst hc
  refine ⟨?_, rfl, rfl, ?_⟩
  · cases so with
    | none => rfl
    | some o =>
      cases sp with
      | none => rfl
      | some p => rfl
  · intro s' w' rid ropts h hrd
    cases so with
    | none => exact InitResult.noConfusion h
    | some o =>
      cases sp with
      | none => exact InitResult.noConfusion h
      | some p =>
        cases oOk with
        | false =>
          rw [init_reader_openFail] at h
          exact InitResult.noConfusion h
        | true =>
          cases bOk with
          | false =>
            rw [init_reader_batchFail] at h
            exact InitResult.noConfusion h
          | true =>
            rw [init_reader_ok_eq] at h
            injection h with h1 h2
            subst h1
            change Option.some (_, finalReaderOpts o ⟨Option.some [], fnr, fri⟩ p sc gnr) =
              Option.some (rid, ropts) at hrd
            injection hrd with h3
            have h4 : ropts = finalReaderOpts o ⟨Option.some [], fnr, fri⟩ p sc gnr :=
              (congrArg Prod.snd h3).symm
            rw [h4]
            rfl

/-- C8 witness: the concrete operator configured with the empty projection
list initializes exactly like the one with no projection. -/
theorem c8_witness :
    srcProj.file_options = Option.some fileoptsProj ∧
    (CsvSource.init_reader env₀ srcProj w₀ =
       CsvSource.init_reader env₀
         { srcProj with
           file_options := Option.some { fileoptsProj with with_columns := Option.none } } w₀ ∧
     resolve_n_cols fileoptsProj.with_columns srcProj.schema.length = srcProj.schema.length ∧
     resolve_n_cols Option.none srcProj.schema.length = srcProj.schema.length ∧
     (∀ (s' : CsvSource) (w' : World) (rid : Nat) (ropts : CsvReadOptions),
         CsvSource.init_reader env₀ srcProj w₀ = InitResult.ok s' w' →
         s'.reader = Option.some (rid, ropts) → ropts.columns = Option.none)) :=
  ⟨rfl, c8_thm env₀ srcProj w₀ fileoptsProj rfl rfl⟩

/-- C3 counterexample: the claim maps an empty batch sequence to
`Finished`, but the code only maps `None` there — on the concrete
initialized operator, a decoder answer `Some []` yields
`GotMoreData []`, which is not `Finished`. -/
theorem c3_counterexample :
    CsvSource.init_reader env₀ src₀ w₀ = InitResult.ok sInit wInit ∧
    CsvSource.get_batches env₀ (fun _ => DecAnswer.some []) sInit wInit =
      BatchesResult.ok (SourceResult.GotMoreData []) sInit wInit ∧
    ¬ (SourceResult.GotMoreData [] = SourceResult.Finished) :=
  ⟨rfl, rfl, fun h => SourceResult.noConfusion h⟩

/-- C3 amended: on an initialized operator, a decoder answer of `None` maps
to `Finished`, and any `Some` batch sequence — the empty one included — is
returned as `GotMoreData` after index stamping, with one chunk per batch. -/
theorem c3_amended_thm (env : Env) (dec : Nat → DecAnswer) (s : CsvSource)
    (w : World) (r : Nat × CsvReadOptions) (e : Either Nat Nat)
    (hr : s.reader = Option.some r) (hb : s.batched_reader = Option.some e) :
    (dec s.n_threads = DecAnswer.none →
        CsvSource.get_batches env dec s w =
          BatchesResult.ok SourceResult.Finished s w) ∧
    (∀ bs, dec s.n_threads = DecAnswer.some bs →
        CsvSource.get_batches env dec s w =
          BatchesResult.ok (SourceResult.GotMoreData (stampChunks w.counter 0 bs)) s
            { w with counter := ((w.counter + 0) % U32MOD +
                (stampChunks w.counter 0 bs).length % U32MOD) % U32MOD } ∧
        (stampChunks w.counter 0 bs).length = bs.length) := by
  obtain ⟨sc, rdr, bat, nt, sp, so, sfo, v⟩ := s
  change rdr = Option.some r at hr
  change bat = Option.some e at hb
  subst hr
  subst hb
  constructor
  · intro hd
    change dec nt = DecAnswer.none at hd
    rw [get_batches_inited, hd]
  · intro bs hd
    change dec nt = DecAnswer.some bs at hd
    refine ⟨?_, stampChunks_length w.counter 0 bs⟩
    rw [get_batches_inited, hd]

/-- C3 amended witness: `None` gives `Finished` and a one-batch answer gives
a one-chunk `GotMoreData` on the concrete initialized operator. -/
theorem c3_amended_witness :
    (CsvSource.get_batches env₀ (fun _ => DecAnswer.none) sInit wInit =
       BatchesResult.ok SourceResult.Finished sInit wInit) ∧
    (CsvSource.get_batches env₀ (fun _ => DecAnswer.some [⟨5⟩]) sInit wInit =
       BatchesResult.ok
         (SourceResult.GotMoreData (stampChunks wInit.counter 0 [⟨5⟩])) sInit
         { wInit with counter := ((wInit.counter + 0) % U32MOD +
             (stampChunks wInit.counter 0 [⟨5⟩]).length % U32MOD) % U32MOD } ∧
     (stampChunks wInit.counter 0 [⟨5⟩]).length = [(⟨5⟩ : DataFrame)].length) :=
  ⟨(c3_amended_thm env₀ (fun _ => DecAnswer.none) sInit wInit (0, ropts₀)
      (Either.left 1) rfl rfl).1 rfl,
   (c3_amended_thm env₀ (fun _ => DecAnswer.some [⟨5⟩]) sInit wInit (0, ropts₀)
      (Either.left 1) rfl rfl).2 [⟨5⟩] rfl⟩

/-- C4 counterexample: the claim says teardown releases all resources
acquired during initialization on every error path.  On the concrete run
where the file open succeeds but building the batched reader fails, the
leaked reader box (allocation `0`) is recorded nowhere in the operator, and
dropping the operator frees nothing: the open file handle stays live and
unreachable. -/
theorem c4_counterexample :
    CsvSource.init_reader envBatchFail src₀ w₀ = InitResult.err sFail wBatchFail ∧
    wBatchFail.allocated = [0] ∧
    CsvSource.drop sFail wBatchFail = wBatchFail ∧
    (CsvSource.drop sFail wBatchFail).freed = [] :=
  ⟨rfl, rfl, rfl, rfl⟩

/-- C4 amended: teardown releases exactly the resources recorded in the
operator's fields — after a fully successful initialization, dropping the
operator frees both allocations (decoder first, then reader), so nothing
acquired by a successful initialization leaks.  (The failing-initialization
leak is the counterexample.) -/
theorem c4_amended_thm (env : Env) (s : CsvSource) (w : World) (s' : CsvSource)
    (w' : World) (h : CsvSource.init_reader env s w = InitResult.ok s' w') :
    w'.allocated = w.allocated ++ [w.nextId, w.nextId + 1] ∧
    (CsvSource.drop s' w').freed = w.freed ++ [w.nextId + 1, w.nextId] ∧
    (∀ x, x ∈ w'.allocated → x ∉ w.allocated → x ∈ (CsvSource.drop s' w').freed) := by
  obtain ⟨sc, rdr, bat, nt, sp, so, sfo, v⟩ := s
  obtain ⟨oOk, bOk, gnr, pt⟩ := env
  cases so with
  | none => exact InitResult.noConfusion h
  | some o =>
    cases sfo with
    | none => exact InitResult.noConfusion h
    | some fo =>
      cases sp with
      | none => exact InitResult.noConfusion h
      | some p =>
        cases oOk with
        | false =>
          rw [init_reader_openFail] at h
          exact InitResult.noConfusion h
        | true =>
          cases bOk with
          | false =>
            rw [init_reader_batchFail] at h
            exact InitResult.noConfusion h
          | true =>
            rw [init_reader_ok_eq] at h
            injection h with h1 h2
            subst h1
            subst h2
            have hfr : (CsvSource.drop (postInitState gnr pt sc nt o fo p v w)
                (postInitWorld pt sc fo v w)).freed =
                w.freed ++ [w.nextId + 1, w.nextId] := by
              obtain ⟨lm, osk, oso, onr, ocol, orc, ori, opa⟩ := o
              cases lm <;>
                simp [CsvSource.drop, postInitState, World.free, postInitWorld_freed,
                  logWorld_nextId]
            refine ⟨postInitWorld_allocated pt sc fo v w, hfr, ?_⟩
            intro x hx hnx
            rw [postInitWorld_allocated] at hx
            rw [hfr]
            simp [List.mem_append] at hx ⊢
            tauto

/-- C4 amended witness: the concrete successful initialization allocates
`[0, 1]` and dropping the initialized operator frees `[1, 0]`. -/
theorem c4_amended_witness :
    wInit.allocated = w₀.allocated ++ [w₀.nextId, w₀.nextId + 1] ∧
    (CsvSource.drop sInit wInit).freed = w₀.freed ++ [w₀.nextId + 1, w₀.nextId] ∧
    (∀ x, x ∈ wInit.allocated → x ∉ w₀.allocated →
        x ∈ (CsvSource.drop sInit wInit).freed) :=
  c4_amended_thm env₀ src₀ w₀ sInit wInit rfl

/-- C5: whenever a `get_batches` call returns `GotMoreData` with some chunk
list `out` and the 32-bit counter does not wrap within the call, the i-th
chunk (0-based, decoder production order) carries chunk_index `base + i`,
where `base` is the allocator value read at the start of stamping (the
chunk counter at the start of the call) — so the stamped indices are
contiguous and strictly increasing. -/
theorem c5_thm (env : Env) (dec : Nat → DecAnswer) (s : CsvSource) (w : World)
    (out : List DataChunk) (s' : CsvSource) (w' : World)
    (h : CsvSource.get_batches env dec s w =
      BatchesResult.ok (SourceResult.GotMoreData out) s' w')
    (hnw : w.counter + out.length ≤ U32MOD) :
    ∀ (i : Nat) (hi : i < out.length),
      (out.get ⟨i, hi⟩).chunk_index = w.counter + i := by
  obtain ⟨bs, hout⟩ := gotmore_shape env dec s w out s' w' h
  subst hout
  intro i hi
  have hi' : i < bs.length := by
    rw [stampChunks_length] at hi
    exact hi
  rw [stamp_out_get w.counter bs i hi hi']
  have hlt : w.counter + i < U32MOD := by
    rw [stampChunks_length] at hnw
    omega
  exact Nat.mod_eq_of_lt hlt

/-- C5 witness: a concrete two-batch call stamps indices base + 0 and
base + 1. -/
theorem c5_witness :
    (CsvSource.get_batches env₀ (fun _ => DecAnswer.some [⟨7⟩, ⟨8⟩]) sInit wInit =
       BatchesResult.ok
         (SourceResult.GotMoreData (stampChunks wInit.counter 0 [⟨7⟩, ⟨8⟩])) sInit
         { wInit with counter := ((wInit.counter + 0) % U32MOD +
             (stampChunks wInit.counter 0 [⟨7⟩, ⟨8⟩]).length % U32MOD) % U32MOD } ∧
     wInit.counter + (stampChunks wInit.counter 0 [⟨7⟩, ⟨8⟩]).length ≤ U32MOD) ∧
    (∀ (i : Nat) (hi : i < (stampChunks wInit.counter 0 [⟨7⟩, ⟨8⟩]).length),
        ((stampChunks wInit.counter 0 [⟨7⟩, ⟨8⟩]).get ⟨i, hi⟩).chunk_index =
          wInit.counter + i) :=
  ⟨⟨rfl, by decide⟩,
   c5_thm env₀ (fun _ => DecAnswer.some [⟨7⟩, ⟨8⟩]) sInit wInit
     (stampChunks wInit.counter 0 [⟨7⟩, ⟨8⟩]) sInit
     { wInit with counter := ((wInit.counter + 0) % U32MOD +
         (stampChunks wInit.counter 0 [⟨7⟩, ⟨8⟩]).length % U32MOD) % U32MOD }
     rfl (by decide)⟩

end PolarsPipe
